import Mathlib

/-!
Verification of the Living Legacy question-bank Selector.

This file embeds, in Lean 4, the reference data and the question-generation
logic of `src/question_bank.py` and the scoping catalog of
`src/legacy_data.py`, and proves the behavioural properties stated in the
specification of the Selector.

Modelling conventions:
* Python dicts with distinct string keys become association lists with
  first-match lookup (`List.lookup`), which is observationally identical.
* A scoping answer is either a Python `str` or a `list` of `str` (these are
  the only shapes `build_project_data` in `src/app.py` produces); the
  generator's `isinstance` dispatch becomes a match on that sum.
* `generate_questions` builds an `OrderedDict`; since the category list it
  inserts from is duplicate-free (proved below as `selected_nodup`), an
  ordered list of key-value pairs models it exactly.
-/

namespace LivingLegacy

/-- A scoping answer as stored in `project_data["scoping_details"]`:
either a single string (radio / free-text answers) or a list of selected
option strings (multiselect answers). -/
inductive Answer where
  | str (s : String)
  | strList (l : List String)
deriving DecidableEq

/-- The fields of the `project_data` dict built by `build_project_data` in
`src/app.py` that are relevant here, plus representative unrelated fields
(subject name, audience, timeline, notes) used to state that the generator
ignores them. `scoping_details` is keyed by question display text, in the
declaration order of the archetype's questions. -/
structure ProjectScope where
  legacy_type : String
  scoping_details : List (String × Answer)
  subject_name : String
  target_audience : List String
  timeline : String
  additional_notes : String
deriving DecidableEq

/-- The answer kind of a scoping question (the `"type"` field in
`src/legacy_data.py`). -/
inductive QType where
  | radio
  | multiselect
  | text
deriving DecidableEq, BEq

/-- One follow-up scoping question from the catalog in `src/legacy_data.py`. -/
structure ScopingQuestion where
  key : String
  question : String
  qtype : QType
  options : List String
deriving DecidableEq

/-- The master question pool of src/question_bank.py: category name to its
canonical question list (the module-level dict QUESTIONS_BY_CATEGORY, whose
string keys are distinct, so an association list with first-match lookup
models the Python dict exactly). -/
def QUESTIONS_BY_CATEGORY : List (String × List String) := [
  ("Childhood & Growing Up", [
    "What is your earliest memory?",
    "Where did you grow up, and what was your neighborhood like?",
    "Describe the home you grew up in — what did it look like, smell like, sound like?",
    "Who were the most important people in your childhood?",
    "What were your favorite games, toys, or ways to spend time as a kid?",
    "What was school like for you? Did you have a favorite teacher?",
    "What got you in trouble as a kid?",
    "What was dinnertime like in your family?",
    "What holidays or traditions did your family celebrate, and how?",
    "Was there a moment in your childhood that changed the direction of your life?",
    "What was the best summer you remember as a kid?",
    "What did you want to be when you grew up?",
    "What were your parents like when you were young?",
    "What music, TV shows, or movies do you remember from growing up?",
    "What was the hardest thing about being a kid in that era?"]),
  ("Family & Relationships", [
    "How did you meet your spouse or life partner?",
    "What was your wedding day like?",
    "What's the secret to a lasting relationship, in your experience?",
    "What was it like becoming a parent for the first time?",
    "What's a favorite memory with each of your children?",
    "How would you describe your parenting style?",
    "What traditions have you created with your own family?",
    "What do you admire most about your parents?",
    "Tell me about a family challenge you overcame together.",
    "What do you most want your children or grandchildren to know about you?",
    "Is there a family recipe, song, or saying that's been passed down?",
    "What has being a grandparent meant to you?",
    "Describe a perfect ordinary day with your family.",
    "What's the funniest thing that ever happened in your family?",
    "Who in your extended family had the biggest impact on you?"]),
  ("Career & Professional Life", [
    "What was your very first job?",
    "How did you end up in the career or industry you spent your life in?",
    "Who was the most influential mentor in your professional life?",
    "What accomplishment are you most proud of professionally?",
    "Tell me about a time you failed at work and what you learned from it.",
    "How did your career change you as a person?",
    "What was the biggest risk you took professionally?",
    "What was the hardest decision you ever made at work?",
    "What leadership lesson took you the longest to learn?",
    "If you could give one piece of career advice to a young person, what would it be?",
    "How did you handle the balance between work and family?",
    "What do you think your colleagues would say about you?",
    "What industry changes did you witness during your career?",
    "Describe the moment you knew it was time to retire or move on.",
    "What legacy did you leave at the place you worked the longest?"]),
  ("Values & Life Lessons", [
    "What values were you raised with that you still hold today?",
    "What's the most important lesson life has taught you?",
    "What do you know now that you wish you'd known at 20?",
    "What does 'success' mean to you — has that definition changed?",
    "What advice would you give about handling money?",
    "How do you define a good life?",
    "What's the best advice anyone ever gave you?",
    "What's a mistake you made that taught you something valuable?",
    "How do you handle disagreements or conflict?",
    "What does courage mean to you? When have you had to be courageous?",
    "How do you decide what's right when the answer isn't clear?",
    "What's worth fighting for?",
    "If you could write a letter to your younger self, what would it say?",
    "What keeps you going when life gets hard?",
    "What do you hope people learn from your life?"]),
  ("Faith & Spirituality", [
    "How would you describe your relationship with faith or spirituality?",
    "Were you raised in a religious tradition? How did that shape you?",
    "Was there a defining moment in your spiritual life?",
    "How has your faith helped you through difficult times?",
    "Have you ever had doubts? How did you work through them?",
    "What spiritual practices are most meaningful to you?",
    "Is there a scripture, prayer, or saying that guides your life?",
    "Who has been a spiritual mentor or model for you?",
    "How has your faith changed or deepened over the years?",
    "What do you hope to pass down about your faith?",
    "Describe a moment you felt truly at peace.",
    "How does your faith community matter to you?"]),
  ("Military & Service", [
    "Why did you join the military / enter service?",
    "What was basic training like?",
    "Where were you stationed, and what was life like there?",
    "Tell me about the people you served with — who stands out?",
    "What was your most meaningful experience during your service?",
    "How did military life affect your family?",
    "Was there a moment that tested everything you had?",
    "What did you learn about leadership in the military?",
    "How did you transition back to civilian life?",
    "Is there a fallen comrade you'd like to honor or remember?",
    "What do civilians most misunderstand about military life?",
    "How did your service shape the person you became?",
    "What's the funniest thing that happened during your service?",
    "If you could talk to a young person considering enlisting, what would you say?"]),
  ("Adventures & Experiences", [
    "What's the greatest adventure you've ever had?",
    "Where is the most memorable place you've ever traveled?",
    "Tell me about a time you stepped completely outside your comfort zone.",
    "What's the most spontaneous thing you've ever done?",
    "Is there an experience that fundamentally changed how you see the world?",
    "What's a hobby or passion that has brought you the most joy?",
    "Describe a perfect day doing something you love.",
    "What's a risk you took that paid off — or didn't?",
    "Tell me about a time you were truly awestruck.",
    "What's on your bucket list that you still hope to do?"]),
  ("Health & Resilience", [
    "Have you faced a serious health challenge? How did you cope?",
    "What kept you strong during the hardest period of your life?",
    "How did your family support you through a difficult time?",
    "What did you learn about yourself through adversity?",
    "Has a loss or hardship changed your perspective on life?",
    "What advice would you give someone going through something similar?",
    "How do you take care of your mental and emotional health?",
    "Who or what gave you hope when things looked dark?"]),
  ("Cultural Heritage & Traditions", [
    "What is your cultural or ethnic heritage?",
    "What traditions from your culture are most important to you?",
    "Are there family customs you'd like to see continue?",
    "What language(s) were spoken in your home growing up?",
    "Tell me about a food or recipe that connects you to your heritage.",
    "What cultural values were instilled in you?",
    "How has your heritage shaped your identity?",
    "Is there a family history or origin story that's been passed down?"]),
  ("Reflection & Legacy", [
    "When you look back on your life, what are you most grateful for?",
    "What are you most proud of?",
    "Is there anything you wish you'd done differently?",
    "What do you want people to remember about you?",
    "If you could live one day over again, which would it be and why?",
    "What brings you the most joy right now?",
    "What does the word 'legacy' mean to you?",
    "What message would you like to leave for future generations?",
    "How would you like to be remembered by those who knew you best?",
    "If you had one more thing to say to the people you love, what would it be?"])]

/-- Default categories per legacy type (LEGACY_TYPE_CATEGORIES in
src/question_bank.py). -/
def LEGACY_TYPE_CATEGORIES : List (String × List String) := [
  ("Full Life Story", [
    "Childhood & Growing Up",
    "Family & Relationships",
    "Career & Professional Life",
    "Values & Life Lessons",
    "Adventures & Experiences",
    "Reflection & Legacy"]),
  ("Words of Wisdom", [
    "Values & Life Lessons",
    "Reflection & Legacy"]),
  ("Growing Up", [
    "Childhood & Growing Up",
    "Cultural Heritage & Traditions"]),
  ("Professional Life: My Career", [
    "Career & Professional Life",
    "Values & Life Lessons"]),
  ("Love & Family", [
    "Family & Relationships",
    "Reflection & Legacy"]),
  ("Military & Service", [
    "Military & Service",
    "Values & Life Lessons",
    "Reflection & Legacy"]),
  ("Faith & Spiritual Journey", [
    "Faith & Spirituality",
    "Values & Life Lessons",
    "Reflection & Legacy"]),
  ("A Specific Chapter", [
    "Adventures & Experiences",
    "Health & Resilience",
    "Reflection & Legacy"])]

/-- Scoping theme selection to extra category (THEME_TO_CATEGORY in
src/question_bank.py); keys are distinct in the Python literal. -/
def THEME_TO_CATEGORY : List (String × String) := [
  ("Family & Relationships", "Family & Relationships"),
  ("Career & Professional Life", "Career & Professional Life"),
  ("Education & Learning", "Childhood & Growing Up"),
  ("Travel & Adventures", "Adventures & Experiences"),
  ("Faith & Spirituality", "Faith & Spirituality"),
  ("Health & Overcoming Challenges", "Health & Resilience"),
  ("Hobbies & Passions", "Adventures & Experiences"),
  ("Community & Volunteering", "Cultural Heritage & Traditions"),
  ("Military Service", "Military & Service"),
  ("Cultural Heritage & Traditions", "Cultural Heritage & Traditions"),
  ("Life lessons & general advice", "Values & Life Lessons"),
  ("Relationship & marriage wisdom", "Family & Relationships"),
  ("Parenting insights", "Family & Relationships"),
  ("Career & professional guidance", "Career & Professional Life"),
  ("Financial lessons learned", "Values & Life Lessons"),
  ("Health & wellness advice", "Health & Resilience"),
  ("Faith & spiritual guidance", "Faith & Spirituality"),
  ("Dealing with adversity & resilience", "Health & Resilience"),
  ("Happiness & finding purpose", "Values & Life Lessons"),
  ("Mistakes I learned from", "Values & Life Lessons"),
  ("Family life & home", "Family & Relationships"),
  ("Neighborhood & community", "Cultural Heritage & Traditions"),
  ("School days & friendships", "Childhood & Growing Up"),
  ("Cultural traditions & holidays", "Cultural Heritage & Traditions"),
  ("Pivotal moments & turning points", "Values & Life Lessons"),
  ("Games, toys & entertainment of the era", "Childhood & Growing Up"),
  ("Food, meals & family recipes", "Cultural Heritage & Traditions"),
  ("Summer vacations & adventures", "Adventures & Experiences"),
  ("Challenges & how I overcame them", "Health & Resilience"),
  ("The historical era I grew up in", "Cultural Heritage & Traditions"),
  ("How I got started & early career", "Career & Professional Life"),
  ("Mentors & people who shaped my path", "Career & Professional Life"),
  ("Major accomplishments & proud moments", "Career & Professional Life"),
  ("Failures, setbacks & what I learned", "Health & Resilience"),
  ("Leadership philosophy & management style", "Career & Professional Life"),
  ("Industry changes I witnessed or drove", "Career & Professional Life"),
  ("Work-life balance & sacrifices", "Family & Relationships"),
  ("Advice for the next generation in my field", "Values & Life Lessons"),
  ("The legacy I left at my workplace", "Reflection & Legacy"),
  ("Transition to retirement", "Reflection & Legacy"),
  ("My love story / marriage", "Family & Relationships"),
  ("Being a parent", "Family & Relationships"),
  ("Being a grandparent", "Family & Relationships"),
  ("My parents & the family I came from", "Family & Relationships"),
  ("Siblings & extended family", "Family & Relationships"),
  ("Lifelong friendships", "Family & Relationships"),
  ("Chosen family & community bonds", "Cultural Heritage & Traditions"),
  ("How we met / how it all began", "Family & Relationships"),
  ("Traditions & rituals we built together", "Cultural Heritage & Traditions"),
  ("Challenges we faced & overcame", "Health & Resilience"),
  ("Everyday moments that defined us", "Family & Relationships"),
  ("Lessons I learned about love & commitment", "Values & Life Lessons"),
  ("Funny stories & inside jokes", "Family & Relationships"),
  ("What I want them to know", "Reflection & Legacy"),
  ("Basic training & early days", "Military & Service"),
  ("Deployments & duty stations", "Military & Service"),
  ("Combat experiences", "Military & Service"),
  ("Brotherhood & camaraderie", "Military & Service"),
  ("Leadership & lessons learned", "Values & Life Lessons"),
  ("Impact on family & home life", "Family & Relationships"),
  ("Transition to civilian life", "Military & Service"),
  ("How service shaped who I am", "Reflection & Legacy"),
  ("Honoring fallen comrades", "Military & Service"),
  ("Funny stories & lighter moments", "Military & Service"),
  ("Foundational beliefs & values", "Faith & Spirituality"),
  ("Key moments of spiritual growth", "Faith & Spirituality"),
  ("How faith carried me through hard times", "Faith & Spirituality"),
  ("Community & fellowship", "Cultural Heritage & Traditions"),
  ("Doubts, questions & honest wrestling", "Faith & Spirituality"),
  ("Prayers that were answered", "Faith & Spirituality"),
  ("Spiritual mentors & teachers", "Faith & Spirituality"),
  ("Faith traditions I want to pass down", "Faith & Spirituality"),
  ("How my faith evolved over time", "Faith & Spirituality"),
  ("It changed who I am", "Reflection & Legacy"),
  ("It's a story my family should know", "Family & Relationships"),
  ("It involved incredible people", "Family & Relationships"),
  ("It was an adventure or unique experience", "Adventures & Experiences"),
  ("I overcame something difficult", "Health & Resilience"),
  ("It shaped my values or beliefs", "Values & Life Lessons"),
  ("It's a piece of history", "Cultural Heritage & Traditions"),
  ("It's simply a great story", "Adventures & Experiences")]

/-- The catalog of src/legacy_data.py: each legacy type with its ordered
follow-up scoping questions (key, display prompt, answer kind, option labels;
free-text questions carry no options — their placeholder text is UI-only and
not embedded). Icons and descriptions are likewise UI-only and omitted. -/
def LEGACY_TYPES : List (String × List ScopingQuestion) := [
  ("Full Life Story", [
    { key := "time_depth",
      question := "How far back would you like to go?",
      qtype := QType.radio,
      options := [
        "As far back as I can remember",
        "Starting from my teenage years",
        "Starting from adulthood"] },
    { key := "themes",
      question := "Which life themes are most important to include? (Select all that apply)",
      qtype := QType.multiselect,
      options := [
        "Family & Relationships",
        "Career & Professional Life",
        "Education & Learning",
        "Travel & Adventures",
        "Faith & Spirituality",
        "Health & Overcoming Challenges",
        "Hobbies & Passions",
        "Community & Volunteering",
        "Military Service",
        "Cultural Heritage & Traditions"] },
    { key := "tone",
      question := "What tone or feel should the story have?",
      qtype := QType.radio,
      options := [
        "Warm and conversational — like sitting on the porch together",
        "Reflective and thoughtful — lessons learned along the way",
        "Celebratory and uplifting — highlighting the best moments",
        "Honest and raw — the full truth, good and hard"] },
    { key := "estimated_length",
      question := "How extensive should the final piece be?",
      qtype := QType.radio,
      options := [
        "A concise overview (10-20 pages / 30-60 min of audio)",
        "A detailed narrative (50-100 pages / 2-4 hours of audio)",
        "A comprehensive memoir (100+ pages / 5+ hours of audio)"] }]),
  ("Words of Wisdom", [
    { key := "wisdom_topics",
      question := "What areas of wisdom would you like to share? (Select all that apply)",
      qtype := QType.multiselect,
      options := [
        "Life lessons & general advice",
        "Relationship & marriage wisdom",
        "Parenting insights",
        "Career & professional guidance",
        "Financial lessons learned",
        "Health & wellness advice",
        "Faith & spiritual guidance",
        "Dealing with adversity & resilience",
        "Happiness & finding purpose",
        "Mistakes I learned from"] },
    { key := "format_pref",
      question := "How would you like the wisdom presented?",
      qtype := QType.radio,
      options := [
        "Short, memorable sayings and principles",
        "Stories that illustrate each lesson",
        "Letters addressed to specific people",
        "A mix of stories, advice, and reflections"] },
    { key := "tone",
      question := "What tone feels right?",
      qtype := QType.radio,
      options := [
        "Gentle and encouraging",
        "Direct and no-nonsense",
        "Humorous and lighthearted",
        "Deeply personal and heartfelt"] }]),
  ("Growing Up", [
    { key := "era_focus",
      question := "Which period would you like to focus on most?",
      qtype := QType.radio,
      options := [
        "Early childhood (birth to age 10)",
        "Pre-teen and teenage years (10-18)",
        "The full span of growing up (birth through leaving home)"] },
    { key := "growing_up_themes",
      question := "What aspects of growing up are most important to capture? (Select all that apply)",
      qtype := QType.multiselect,
      options := [
        "Family life & home",
        "Neighborhood & community",
        "School days & friendships",
        "Cultural traditions & holidays",
        "Pivotal moments & turning points",
        "Games, toys & entertainment of the era",
        "Food, meals & family recipes",
        "Summer vacations & adventures",
        "Challenges & how I overcame them",
        "The historical era I grew up in"] },
    { key := "setting_detail",
      question := "How important is it to paint a picture of the time and place?",
      qtype := QType.radio,
      options := [
        "Very important — I want readers to feel like they're there",
        "Somewhat — mention key details but focus on the stories",
        "Not very — the stories and people matter most"] }]),
  ("Professional Life: My Career", [
    { key := "career_scope",
      question := "What part of your career would you like to focus on?",
      qtype := QType.radio,
      options := [
        "My entire career arc, start to finish",
        "A specific role or company that defined me",
        "A particular industry or field I worked in",
        "My entrepreneurial journey / business I built"] },
    { key := "career_themes",
      question := "Which professional themes matter most? (Select all that apply)",
      qtype := QType.multiselect,
      options := [
        "How I got started & early career",
        "Mentors & people who shaped my path",
        "Major accomplishments & proud moments",
        "Failures, setbacks & what I learned",
        "Leadership philosophy & management style",
        "Industry changes I witnessed or drove",
        "Work-life balance & sacrifices",
        "Advice for the next generation in my field",
        "The legacy I left at my workplace",
        "Transition to retirement"] },
    { key := "detail_level",
      question := "How technical or detailed should the career story be?",
      qtype := QType.radio,
      options := [
        "Keep it accessible — anyone should be able to enjoy it",
        "Some industry detail — for people familiar with my field",
        "In-depth — a record for professionals and colleagues"] }]),
  ("Love & Family", [
    { key := "relationship_focus",
      question := "Which relationships would you like to focus on? (Select all that apply)",
      qtype := QType.multiselect,
      options := [
        "My love story / marriage",
        "Being a parent",
        "Being a grandparent",
        "My parents & the family I came from",
        "Siblings & extended family",
        "Lifelong friendships",
        "Chosen family & community bonds"] },
    { key := "family_themes",
      question := "What aspects of these relationships matter most? (Select all that apply)",
      qtype := QType.multiselect,
      options := [
        "How we met / how it all began",
        "Traditions & rituals we built together",
        "Challenges we faced & overcame",
        "Everyday moments that defined us",
        "Lessons I learned about love & commitment",
        "Funny stories & inside jokes",
        "What I want them to know"] },
    { key := "tone",
      question := "What tone feels right for these stories?",
      qtype := QType.radio,
      options := [
        "Romantic and sentimental",
        "Warm and down-to-earth",
        "Funny and affectionate",
        "Deeply honest — the real story"] }]),
  ("Military & Service", [
    { key := "service_scope",
      question := "What branch and era of service?",
      qtype := QType.text,
      options := [] },
    { key := "service_themes",
      question := "Which aspects of your service are most important to capture? (Select all that apply)",
      qtype := QType.multiselect,
      options := [
        "Basic training & early days",
        "Deployments & duty stations",
        "Combat experiences",
        "Brotherhood & camaraderie",
        "Leadership & lessons learned",
        "Impact on family & home life",
        "Transition to civilian life",
        "How service shaped who I am",
        "Honoring fallen comrades",
        "Funny stories & lighter moments"] },
    { key := "sensitivity",
      question := "Are there aspects of your service you'd prefer to keep private?",
      qtype := QType.radio,
      options := [
        "I'm an open book — capture it all",
        "Some topics are off-limits — I'll let you know as we go",
        "I'd like to focus on the positive and skip the difficult parts"] }]),
  ("Faith & Spiritual Journey", [
    { key := "faith_scope",
      question := "What best describes your spiritual journey?",
      qtype := QType.radio,
      options := [
        "Lifelong faith in one tradition",
        "A journey across different beliefs or denominations",
        "Coming to faith later in life",
        "A spiritual but not religious path",
        "A complex relationship with faith"] },
    { key := "faith_themes",
      question := "What aspects of your faith journey matter most? (Select all that apply)",
      qtype := QType.multiselect,
      options := [
        "Foundational beliefs & values",
        "Key moments of spiritual growth",
        "How faith carried me through hard times",
        "Community & fellowship",
        "Doubts, questions & honest wrestling",
        "Prayers that were answered",
        "Spiritual mentors & teachers",
        "Faith traditions I want to pass down",
        "How my faith evolved over time"] }]),
  ("A Specific Chapter", [
    { key := "chapter_description",
      question := "Briefly describe the chapter or experience you want to capture:",
      qtype := QType.text,
      options := [] },
    { key := "chapter_timeframe",
      question := "Roughly how long did this chapter span?",
      qtype := QType.radio,
      options := [
        "A single event or moment",
        "Days to weeks",
        "Months",
        "A year or two",
        "Several years"] },
    { key := "chapter_themes",
      question := "What makes this chapter worth preserving? (Select all that apply)",
      qtype := QType.multiselect,
      options := [
        "It changed who I am",
        "It's a story my family should know",
        "It involved incredible people",
        "It was an adventure or unique experience",
        "I overcame something difficult",
        "It shaped my values or beliefs",
        "It's a piece of history",
        "It's simply a great story"] }])]

/-- `categories.append(mapped)` guarded by `mapped not in categories`:
the insertion-order-deduplicating append used throughout
`generate_questions`. -/
def insertIfAbsent (cats : List String) (c : String) : List String :=
  if c ∈ cats then cats else cats ++ [c]

/-- `THEME_TO_CATEGORY.get(theme)` combined with Python truthiness: the
generator tests `if mapped and ...`, so a `None` result and (hypothetically)
an empty-string category are both rejected. -/
def mappedOf (theme : String) : Option String :=
  match THEME_TO_CATEGORY.lookup theme with
  | some c => if c = "" then none else some c
  | none => none

/-- One step of the theme-expansion loop body of `generate_questions`:
`mapped = THEME_TO_CATEGORY.get(theme); if mapped and mapped not in
categories: categories.append(mapped)`. -/
def addMapped (cats : List String) (theme : String) : List String :=
  match mappedOf theme with
  | some c => insertIfAbsent cats c
  | none => cats

/-- Processing of one scoping answer by `generate_questions`: a list answer
has each element looked up in selection order, a string answer is looked up
once, anything else would be ignored. -/
def processAnswer (cats : List String) : Answer → List String
  | Answer.strList l => l.foldl addMapped cats
  | Answer.str s => addMapped cats s

/-- `list(LEGACY_TYPE_CATEGORIES.get(legacy_type, []))`: the default
category list of the chosen legacy type, empty when the type is unknown. -/
def baseCategories (lt : String) : List String :=
  (LEGACY_TYPE_CATEGORIES.lookup lt).getD []

/-- The full category sequence computed by `generate_questions` before pool
resolution: defaults, then theme-derived additions in scan order, then
`"Reflection & Legacy"` appended when not already present. -/
def selectedCategories (p : ProjectScope) : List String :=
  insertIfAbsent
    (p.scoping_details.foldl (fun acc qa => processAnswer acc qa.2)
      (baseCategories p.legacy_type))
    "Reflection & Legacy"

/-- The pool-resolution step for one category:
`questions = QUESTIONS_BY_CATEGORY.get(cat, []); if questions:
result[cat] = list(questions)` — a category missing from the pool, or with
an empty list, contributes nothing. -/
def resolveCategory (cat : String) : Option (String × List String) :=
  match QUESTIONS_BY_CATEGORY.lookup cat with
  | some qs => if qs.isEmpty then none else some (cat, qs)
  | none => none

/-- `generate_questions` of `src/question_bank.py`: the ordered mapping from
surviving category names to their question lists. -/
def generate_questions (p : ProjectScope) : List (String × List String) :=
  (selectedCategories p).filterMap resolveCategory

/-- Whether a category resolves against the master pool with a non-empty
question list. -/
def poolHit (c : String) : Bool :=
  match QUESTIONS_BY_CATEGORY.lookup c with
  | some qs => !qs.isEmpty
  | none => false

/-- First-occurrence deduplication, written from the spec ordering guarantee:
"category order is insertion order ... deduplicated by first occurrence". -/
def firstDedup (l : List String) : List String :=
  l.foldl insertIfAbsent []

/-- The raw stream of categories a single answer maps to, in scan order,
before any deduplication. -/
def answerThemes : Answer → List String
  | Answer.strList l => l.filterMap mappedOf
  | Answer.str s => (mappedOf s).toList

/-- The raw stream of theme-derived categories of a whole scoping section,
in scan order, before any deduplication. -/
def scopingThemes (sc : List (String × Answer)) : List String :=
  (sc.map (fun qa => answerThemes qa.2)).flatten

/-- Whether an answer has the shape §3 of the spec requires for a question
of the given kind: multiselect answers are lists of option labels, radio
answers are an option label or the empty string, free-text answers are any
string. -/
def answerform (q : ScopingQuestion) (a : Answer) : Bool :=
  match q.qtype, a with
  | QType.multiselect, Answer.strList l => l.all (fun x => q.options.contains x)
  | QType.radio, Answer.str s => s == "" || q.options.contains s
  | QType.text, Answer.str _ => true
  | _, _ => false

/-- A valid `ProjectScope` per §3 of the spec: a known archetype, every
scoping key the display text of one of that archetype's questions, and every
answer of the shape its question's kind requires. -/
def validScope (p : ProjectScope) : Bool :=
  match LEGACY_TYPES.lookup p.legacy_type with
  | some qs => p.scoping_details.all
      (fun ka => qs.any (fun q => q.question == ka.1 && answerform q ka.2))
  | none => false


/-! Concrete project scopes used in the behavioural theorems below. Each is a
full `build_project_data`-shaped record: every follow-up question of the
chosen archetype is present, keyed by its display text, in declaration
order. -/

/-- Archetype "Faith & Spiritual Journey" with no scoping answers. -/
def faithScope : ProjectScope :=
  ⟨"Faith & Spiritual Journey", [], "", [], "", ""⟩

/-- Archetype "Growing Up" with no scoping answers (its defaults do not
contain the closing category). -/
def growingUpScope : ProjectScope :=
  ⟨"Growing Up", [], "", [], "", ""⟩

/-- Archetype "A Specific Chapter" with no scoping answers. -/
def chapterScope : ProjectScope :=
  ⟨"A Specific Chapter", [], "", [], "", ""⟩

/-- Archetype "Full Life Story", fully answered, with the `themes`
multiselect set to `["Travel & Adventures", "Military Service"]` in that
selection order. -/
def fullLifeScope : ProjectScope :=
  ⟨"Full Life Story",
    [("How far back would you like to go?",
        Answer.str "As far back as I can remember"),
     ("Which life themes are most important to include? (Select all that apply)",
        Answer.strList ["Travel & Adventures", "Military Service"]),
     ("What tone or feel should the story have?",
        Answer.str "Warm and conversational — like sitting on the porch together"),
     ("How extensive should the final piece be?",
        Answer.str "A concise overview (10-20 pages / 30-60 min of audio)")],
    "", [], "", ""⟩

/-- Archetype "Military & Service", fully answered, whose free-text
`service_scope` answer happens to coincide with the theme label
"Impact on family & home life". -/
def militaryThemedTextScope : ProjectScope :=
  ⟨"Military & Service",
    [("What branch and era of service?",
        Answer.str "Impact on family & home life"),
     ("Which aspects of your service are most important to capture? (Select all that apply)",
        Answer.strList []),
     ("Are there aspects of your service you'd prefer to keep private?",
        Answer.str "I'm an open book — capture it all")],
    "", [], "", ""⟩

/-- The same scope with the ordinary free-text answer the spec uses as its
example. -/
def militaryPlainTextScope : ProjectScope :=
  ⟨"Military & Service",
    [("What branch and era of service?",
        Answer.str "US Army, 1968-1972"),
     ("Which aspects of your service are most important to capture? (Select all that apply)",
        Answer.strList []),
     ("Are there aspects of your service you'd prefer to keep private?",
        Answer.str "I'm an open book — capture it all")],
    "", [], "", ""⟩

/-- A "Words of Wisdom" scope carrying one subject / audience / timeline /
notes payload. -/
def wisdomScopeA : ProjectScope :=
  ⟨"Words of Wisdom",
    [("What areas of wisdom would you like to share? (Select all that apply)",
        Answer.strList ["Parenting insights"])],
    "Eleanor", ["My Children"], "I'd like to start right away", "first draft"⟩

/-- The same legacy type and scoping answers as `wisdomScopeA` under a
different subject, audience, timeline and notes payload. -/
def wisdomScopeB : ProjectScope :=
  ⟨"Words of Wisdom",
    [("What areas of wisdom would you like to share? (Select all that apply)",
        Answer.strList ["Parenting insights"])],
    "Marcus", ["Future Generations"], "No rush — I\'m just exploring for now", "second draft"⟩


/-! Helper lemmas about association-list lookup and the deduplicating
append. -/

/-- A successful lookup finds a pair of the table. -/
theorem lookup_mem {α : Type} {l : List (String × α)} {k : String} {v : α}
    (h : l.lookup k = some v) : (k, v) ∈ l := by
  induction l with
  | nil => simp [List.lookup] at h
  | cons kv t ih =>
    obtain ⟨k', v'⟩ := kv
    simp only [List.lookup] at h
    by_cases hk : k = k'
    · subst hk
      simp only [beq_self_eq_true] at h
      cases h
      exact List.mem_cons_self _ _
    · rw [beq_false_of_ne hk] at h
      exact List.mem_cons_of_mem _ (ih h)

/-- The element just inserted is a member. -/
theorem mem_insertIfAbsent_self (cats : List String) (c : String) :
    c ∈ insertIfAbsent cats c := by
  unfold insertIfAbsent
  split
  · assumption
  · simp

/-- Insertion preserves the existing members. -/
theorem mem_insertIfAbsent_of_mem {x : String} {cats : List String} (c : String)
    (h : x ∈ cats) : x ∈ insertIfAbsent cats c := by
  unfold insertIfAbsent
  split
  · exact h
  · exact List.mem_append_left _ h

/-- Insertion creates no members beyond the old ones and the new element. -/
theorem of_mem_insertIfAbsent {x c : String} {cats : List String}
    (h : x ∈ insertIfAbsent cats c) : x ∈ cats ∨ x = c := by
  unfold insertIfAbsent at h
  split at h
  · exact Or.inl h
  · rcases List.mem_append.1 h with h1 | h1
    · exact Or.inl h1
    · exact Or.inr (List.mem_singleton.1 h1)

/-- Insertion preserves duplicate-freedom. -/
theorem insertIfAbsent_nodup {c : String} {cats : List String} (h : cats.Nodup) :
    (insertIfAbsent cats c).Nodup := by
  unfold insertIfAbsent
  split
  · exact h
  · next hc =>
    rw [List.nodup_append]
    exact ⟨h, List.nodup_singleton c,
      fun a ha hb => hc (List.mem_singleton.1 hb ▸ ha)⟩

/-- On an absent element the insertion is a plain append. -/
theorem insertIfAbsent_of_not_mem {c : String} {cats : List String}
    (h : c ∉ cats) : insertIfAbsent cats c = cats ++ [c] := by
  unfold insertIfAbsent
  rw [if_neg h]

/-- Members of a deduplicating fold come from the accumulator or the list. -/
theorem mem_foldl_insert {l : List String} {x : String} :
    ∀ {acc : List String}, x ∈ l.foldl insertIfAbsent acc → x ∈ acc ∨ x ∈ l := by
  induction l with
  | nil => exact fun h => Or.inl h
  | cons a t ih =>
    intro acc h
    rw [List.foldl_cons] at h
    rcases ih h with h1 | h1
    · rcases of_mem_insertIfAbsent h1 with h2 | h2
      · exact Or.inl h2
      · exact Or.inr (h2 ▸ List.mem_cons_self a t)
    · exact Or.inr (List.mem_cons_of_mem a h1)

/-- A deduplicating fold keeps the accumulator's members. -/
theorem mem_foldl_insert_of_mem {l : List String} {x : String} :
    ∀ {acc : List String}, x ∈ acc → x ∈ l.foldl insertIfAbsent acc := by
  induction l with
  | nil => exact fun h => h
  | cons a t ih => exact fun h => ih (mem_insertIfAbsent_of_mem a h)

/-- A deduplicating fold keeps the accumulator duplicate-free. -/
theorem foldl_insert_nodup {l : List String} :
    ∀ {acc : List String}, acc.Nodup → (l.foldl insertIfAbsent acc).Nodup := by
  induction l with
  | nil => exact fun h => h
  | cons a t ih => exact fun h => ih (insertIfAbsent_nodup h)

/-- Folding a duplicate-free list disjoint from the accumulator is a plain
append. -/
theorem foldl_insert_of_nodup {l : List String} :
    ∀ {acc : List String}, l.Nodup → (∀ x ∈ l, x ∉ acc) →
      l.foldl insertIfAbsent acc = acc ++ l := by
  induction l with
  | nil => intro acc _ _; simp
  | cons a t ih =>
    intro acc hnd hdisj
    rw [List.foldl_cons, insertIfAbsent_of_not_mem (hdisj a (List.mem_cons_self a t)),
      ih (List.nodup_cons.1 hnd).2]
    · simp
    · intro x hx
      rw [List.mem_append]
      rintro (h1 | h1)
      · exact hdisj x (List.mem_cons_of_mem a hx) h1
      · exact (List.nodup_cons.1 hnd).1 (List.mem_singleton.1 h1 ▸ hx)


/-! Bridge lemmas: the generator loop as a deduplicating fold over the raw
theme stream. -/

/-- Processing one label equals folding over its optional mapped category. -/
theorem addMapped_eq (acc : List String) (s : String) :
    addMapped acc s = ((mappedOf s).toList).foldl insertIfAbsent acc := by
  cases h : mappedOf s <;> simp [addMapped, h, insertIfAbsent]

/-- Processing one answer equals folding over its raw theme stream. -/
theorem processAnswer_eq (acc : List String) (a : Answer) :
    processAnswer acc a = (answerThemes a).foldl insertIfAbsent acc := by
  cases a with
  | str s => simpa [processAnswer, answerThemes] using addMapped_eq acc s
  | strList l =>
    simp only [processAnswer, answerThemes]
    induction l generalizing acc with
    | nil => rfl
    | cons s t ih =>
      rw [List.foldl_cons, List.filterMap_cons]
      cases h : mappedOf s with
      | none =>
        rw [show addMapped acc s = acc from by simp [addMapped, h]]
        exact ih acc
      | some c =>
        rw [show addMapped acc s = insertIfAbsent acc c from by simp [addMapped, h],
          List.foldl_cons]
        exact ih _

/-- The scoping loop of `generate_questions` equals a deduplicating fold over
the raw theme stream of the whole scoping section. -/
theorem scoping_foldl_eq (sc : List (String × Answer)) (acc : List String) :
    sc.foldl (fun a qa => processAnswer a qa.2) acc =
      (scopingThemes sc).foldl insertIfAbsent acc := by
  induction sc generalizing acc with
  | nil => rfl
  | cons qa t ih =>
    rw [List.foldl_cons, ih]
    simp only [scopingThemes, List.map_cons, List.flatten_cons, List.foldl_append]
    rw [processAnswer_eq]

/-! Facts about the three reference tables, checked by evaluation. -/

/-- Every default category list of the legacy-type table is duplicate-free. -/
theorem legacy_table_nodup : ∀ kv ∈ LEGACY_TYPE_CATEGORIES, kv.2.Nodup := by
  decide

/-- Every default category of the legacy-type table resolves against the
master pool with a non-empty question list. -/
theorem legacy_table_poolHit :
    ∀ kv ∈ LEGACY_TYPE_CATEGORIES, ∀ c ∈ kv.2, poolHit c = true := by
  decide

/-- Every category the theme map can produce resolves against the master
pool with a non-empty question list. -/
theorem theme_table_poolHit : ∀ kv ∈ THEME_TO_CATEGORY, poolHit kv.2 = true := by
  decide

/-- The default category list is empty or a value of the legacy-type table. -/
theorem baseCategories_spec (lt : String) :
    baseCategories lt = [] ∨ (lt, baseCategories lt) ∈ LEGACY_TYPE_CATEGORIES := by
  unfold baseCategories
  cases h : LEGACY_TYPE_CATEGORIES.lookup lt with
  | none => exact Or.inl rfl
  | some v => exact Or.inr (by simpa using lookup_mem h)

/-- The default category list of any legacy type is duplicate-free. -/
theorem baseCategories_nodup (lt : String) : (baseCategories lt).Nodup := by
  rcases baseCategories_spec lt with h | h
  · rw [h]; exact List.nodup_nil
  · exact legacy_table_nodup _ h

/-- Every default category resolves against the master pool. -/
theorem baseCategories_poolHit {lt c : String} (h : c ∈ baseCategories lt) :
    poolHit c = true := by
  rcases baseCategories_spec lt with h1 | h1
  · rw [h1] at h; cases h
  · exact legacy_table_poolHit _ h1 c h

/-- Every category the per-label step can produce resolves against the
master pool. -/
theorem mappedOf_poolHit {s c : String} (h : mappedOf s = some c) :
    poolHit c = true := by
  cases h1 : THEME_TO_CATEGORY.lookup s with
  | none => simp [mappedOf, h1] at h
  | some v =>
    simp only [mappedOf, h1] at h
    by_cases hv : v = ""
    · rw [if_pos hv] at h; cases h
    · rw [if_neg hv] at h
      injection h with h2
      subst h2
      exact theme_table_poolHit _ (lookup_mem h1)

/-- Every category of the raw theme stream resolves against the master
pool. -/
theorem mem_scopingThemes_poolHit {sc : List (String × Answer)} {c : String}
    (h : c ∈ scopingThemes sc) : poolHit c = true := by
  unfold scopingThemes at h
  rw [List.mem_flatten] at h
  rcases h with ⟨l, hl, hc⟩
  rw [List.mem_map] at hl
  rcases hl with ⟨qa, _, rfl⟩
  cases hqa : qa.2 with
  | str s =>
    rw [hqa] at hc
    unfold answerThemes at hc
    exact mappedOf_poolHit (Option.mem_toList.1 hc)
  | strList l =>
    rw [hqa] at hc
    unfold answerThemes at hc
    rcases List.mem_filterMap.1 hc with ⟨s, _, h2⟩
    exact mappedOf_poolHit h2


/-! Structural facts about the selected category sequence and the
pool-resolution step. -/

/-- Every selected category resolves against the master pool with a
non-empty question list. -/
theorem selected_poolHit {p : ProjectScope} {c : String}
    (h : c ∈ selectedCategories p) : poolHit c = true := by
  unfold selectedCategories at h
  rcases of_mem_insertIfAbsent h with h1 | rfl
  · rw [scoping_foldl_eq] at h1
    rcases mem_foldl_insert h1 with h2 | h2
    · exact baseCategories_poolHit h2
    · exact mem_scopingThemes_poolHit h2
  · decide

/-- The selected category sequence is duplicate-free. -/
theorem selected_nodup (p : ProjectScope) : (selectedCategories p).Nodup := by
  unfold selectedCategories
  refine insertIfAbsent_nodup ?_
  rw [scoping_foldl_eq]
  exact foldl_insert_nodup (baseCategories_nodup _)

/-- The closing category is always selected. -/
theorem closing_mem_selected (p : ProjectScope) :
    "Reflection & Legacy" ∈ selectedCategories p :=
  mem_insertIfAbsent_self _ _

/-- On a pool hit, resolution returns the category with its pool list. -/
theorem resolveCategory_poolHit {c : String} (h : poolHit c = true) :
    resolveCategory c = some (c, (QUESTIONS_BY_CATEGORY.lookup c).getD []) := by
  cases h1 : QUESTIONS_BY_CATEGORY.lookup c with
  | none => simp [poolHit, h1] at h
  | some qs =>
    simp only [poolHit, h1] at h
    simp [resolveCategory, h1, show qs.isEmpty = false from by simpa using h]

/-- What a successful resolution tells about its input and output. -/
theorem resolveCategory_eq_some {cat : String} {x : String × List String}
    (h : resolveCategory cat = some x) :
    x.1 = cat ∧ QUESTIONS_BY_CATEGORY.lookup cat = some x.2 ∧ x.2 ≠ [] := by
  cases h1 : QUESTIONS_BY_CATEGORY.lookup cat with
  | none => simp [resolveCategory, h1] at h
  | some qs =>
    simp only [resolveCategory, h1] at h
    by_cases he : qs.isEmpty = true
    · rw [if_pos he] at h; cases h
    · rw [if_neg he] at h
      injection h with h2
      subst h2
      exact ⟨rfl, rfl, fun hqs => he (by simp [show qs = [] from hqs])⟩

/-- Resolving a list of pool hits drops nothing and keeps every name. -/
theorem filterMap_resolve_keys :
    ∀ {l : List String}, (∀ c ∈ l, poolHit c = true) →
      (l.filterMap resolveCategory).map Prod.fst = l := by
  intro l
  induction l with
  | nil => intro _; rfl
  | cons a t ih =>
    intro h
    rw [List.filterMap_cons, resolveCategory_poolHit (h a (List.mem_cons_self a t))]
    rw [List.map_cons, ih (fun c hc => h c (List.mem_cons_of_mem a hc))]

/-- The category sequence of the generator output is exactly the selected
category sequence: the pool-miss drop branch never fires. -/
theorem generate_keys (p : ProjectScope) :
    (generate_questions p).map Prod.fst = selectedCategories p :=
  filterMap_resolve_keys (fun _ hc => selected_poolHit hc)

/-- Every selected category reaches the output, paired with its pool list. -/
theorem mem_generate_of_selected {p : ProjectScope} {c : String}
    (h : c ∈ selectedCategories p) :
    (c, (QUESTIONS_BY_CATEGORY.lookup c).getD []) ∈ generate_questions p := by
  unfold generate_questions
  rw [List.mem_filterMap]
  exact ⟨c, h, resolveCategory_poolHit (selected_poolHit h)⟩


/-! The claims. -/

/-- C1 (counterexample): on a fully valid "Full Life Story" scope whose
`themes` answer contains "Military Service", the closing category
"Reflection & Legacy" is present but is NOT the last element of the output
category sequence — "Military & Service" is appended after it, because the
code only appends the closing category when it is absent and never moves an
existing occurrence to the end. -/
theorem closing_not_always_last :
    validScope fullLifeScope = true ∧
    "Reflection & Legacy" ∈ (generate_questions fullLifeScope).map Prod.fst ∧
    ((generate_questions fullLifeScope).map Prod.fst).getLast? ≠
      some "Reflection & Legacy" := by
  decide

/-- C1 (amended): for every `ProjectScope`, "Reflection & Legacy" appears
exactly once in the output category sequence, and it is the last element
whenever neither the archetype defaults nor the theme-derived additions
already contain it. -/
theorem closing_exactly_once (p : ProjectScope) :
    ((generate_questions p).map Prod.fst).count "Reflection & Legacy" = 1 ∧
    ("Reflection & Legacy" ∉
        baseCategories p.legacy_type ++ scopingThemes p.scoping_details →
      ((generate_questions p).map Prod.fst).getLast? =
        some "Reflection & Legacy") := by
  constructor
  · rw [generate_keys]
    exact List.count_eq_one_of_mem (selected_nodup p) (closing_mem_selected p)
  · intro h
    rw [generate_keys]
    unfold selectedCategories
    rw [scoping_foldl_eq, insertIfAbsent_of_not_mem, List.getLast?_concat]
    intro hc
    rcases mem_foldl_insert hc with h1 | h1
    · exact h (List.mem_append_left _ h1)
    · exact h (List.mem_append_right _ h1)

/-- C1 (witness): on the "Growing Up" archetype with no scoping answers the
closing category occurs once and is last. -/
theorem closing_exactly_once_witness :
    ((generate_questions growingUpScope).map Prod.fst).count
      "Reflection & Legacy" = 1 ∧
    ((generate_questions growingUpScope).map Prod.fst).getLast? =
      some "Reflection & Legacy" :=
  ⟨(closing_exactly_once growingUpScope).1,
   (closing_exactly_once growingUpScope).2 (by decide)⟩

/-- C2 (counterexample): the generator looks string answers up in the theme
map without regard to the kind of the question they answer, so a valid
free-text `service_scope` answer whose text coincides with the theme label
"Impact on family & home life" adds the category "Family & Relationships",
while the spec example answer "US Army, 1968-1972" does not. -/
theorem free_text_can_contribute :
    validScope militaryThemedTextScope = true ∧
    validScope militaryPlainTextScope = true ∧
    "Family & Relationships" ∈
      (generate_questions militaryThemedTextScope).map Prod.fst ∧
    "Family & Relationships" ∉
      (generate_questions militaryPlainTextScope).map Prod.fst := by
  decide

/-- C2 (amended): an answer to a free-text scoping question contributes no
category whenever its string value is not a key of the theme map; removing
such an answer from the scoping section leaves the output unchanged. -/
theorem free_text_no_theme_no_category (lt k s nm tl notes : String)
    (aud : List String) (pre post : List (String × Answer))
    (h : THEME_TO_CATEGORY.lookup s = none) :
    generate_questions
        ⟨lt, pre ++ (k, Answer.str s) :: post, nm, aud, tl, notes⟩ =
      generate_questions ⟨lt, pre ++ post, nm, aud, tl, notes⟩ := by
  have hno : ∀ acc, processAnswer acc (Answer.str s) = acc := by
    intro acc
    simp [processAnswer, addMapped, mappedOf, h]
  simp [generate_questions, selectedCategories, List.foldl_append, hno]

/-- C2 (witness): dropping the spec's example free-text answer
"US Army, 1968-1972" from the military scope leaves the output unchanged. -/
theorem free_text_no_theme_no_category_witness :
    generate_questions militaryPlainTextScope =
      generate_questions
        ⟨"Military & Service",
          [("Which aspects of your service are most important to capture? (Select all that apply)",
              Answer.strList []),
           ("Are there aspects of your service you'd prefer to keep private?",
              Answer.str "I'm an open book — capture it all")],
          "", [], "", ""⟩ :=
  free_text_no_theme_no_category "Military & Service"
    "What branch and era of service?" "US Army, 1968-1972" "" "" "" [] [] _
    (by decide)

/-- C3: the output category sequence is exactly the first-occurrence
deduplication of: the archetype defaults in declaration order, then the
theme-derived categories in scan order, then the closing category. -/
theorem categories_first_occurrence_dedup (p : ProjectScope) :
    (generate_questions p).map Prod.fst =
      firstDedup (baseCategories p.legacy_type ++
        (scopingThemes p.scoping_details ++ ["Reflection & Legacy"])) := by
  rw [generate_keys]
  unfold selectedCategories firstDedup
  rw [scoping_foldl_eq, List.foldl_append, List.foldl_append,
    foldl_insert_of_nodup (baseCategories_nodup p.legacy_type) (by simp),
    List.nil_append]
  rfl

/-- C4: the generator is a pure function of the `legacy_type` and
`scoping_details` fields of its argument (and the static tables): two scopes
agreeing on those two fields produce identical outputs, whatever their
subject, audience, timeline and notes. -/
theorem generate_questions_deterministic (p q : ProjectScope)
    (h1 : p.legacy_type = q.legacy_type)
    (h2 : p.scoping_details = q.scoping_details) :
    generate_questions p = generate_questions q := by
  cases p
  cases q
  simp only at h1 h2
  subst h1
  subst h2
  rfl

/-- C4 (witness): two distinct scopes with the same legacy type and scoping
answers but different subject, audience, timeline and notes generate the
same output. -/
theorem generate_questions_deterministic_witness :
    wisdomScopeA ≠ wisdomScopeB ∧
    generate_questions wisdomScopeA = generate_questions wisdomScopeB :=
  ⟨by decide, generate_questions_deterministic wisdomScopeA wisdomScopeB rfl rfl⟩

/-- C5: every category/question-list pair of the output carries exactly the
master pool's declared list for that category (and it is non-empty). Lean
lists are values, so the returned list equal to the pool entry is the
observable content of the `list(questions)` copy the code makes. -/
theorem question_list_fidelity (p : ProjectScope) (c : String)
    (qs : List String) (h : (c, qs) ∈ generate_questions p) :
    QUESTIONS_BY_CATEGORY.lookup c = some qs ∧ qs ≠ [] := by
  unfold generate_questions at h
  rcases List.mem_filterMap.1 h with ⟨cat, _, hres⟩
  rcases resolveCategory_eq_some hres with ⟨h3, h4, h5⟩
  rw [show cat = c from h3.symm] at h4
  exact ⟨h4, h5⟩

/-- C5 (witness): the "Health & Resilience" entry emitted for the
"A Specific Chapter" scope is exactly the pool's list. -/
theorem question_list_fidelity_witness :
    QUESTIONS_BY_CATEGORY.lookup "Health & Resilience" =
      some ((QUESTIONS_BY_CATEGORY.lookup "Health & Resilience").getD []) ∧
    (QUESTIONS_BY_CATEGORY.lookup "Health & Resilience").getD [] ≠ [] :=
  question_list_fidelity chapterScope "Health & Resilience" _ (by decide)

/-- C6: the "Faith & Spiritual Journey" archetype with no scoping answers
yields exactly its declared defaults, already ending in the closing
category. -/
theorem faith_default_categories :
    (generate_questions faithScope).map Prod.fst =
      ["Faith & Spirituality", "Values & Life Lessons", "Reflection & Legacy"] := by
  decide

/-- C7: degenerate reference-table lookups degrade gracefully: an archetype
missing from the default table yields the empty default list; an answer
label missing from the theme map contributes nothing (removing it from a
multiselect answer leaves the output unchanged); a category missing from
the master pool never reaches the output. The embedded generator is a total
function, so none of these raises. -/
theorem degenerate_lookups_graceful :
    (∀ lt : String, LEGACY_TYPE_CATEGORIES.lookup lt = none →
      baseCategories lt = []) ∧
    (∀ (lt k nm tl notes : String) (aud : List String)
        (pre post : List (String × Answer)) (l1 l2 : List String) (s : String),
      THEME_TO_CATEGORY.lookup s = none →
      generate_questions
          ⟨lt, pre ++ (k, Answer.strList (l1 ++ s :: l2)) :: post,
            nm, aud, tl, notes⟩ =
        generate_questions
          ⟨lt, pre ++ (k, Answer.strList (l1 ++ l2)) :: post,
            nm, aud, tl, notes⟩) ∧
    (∀ (p : ProjectScope) (c : String),
      QUESTIONS_BY_CATEGORY.lookup c = none →
      c ∉ (generate_questions p).map Prod.fst) := by
  refine ⟨?_, ?_, ?_⟩
  · intro lt h
    unfold baseCategories
    rw [h]
    rfl
  · intro lt k nm tl notes aud pre post l1 l2 s h
    have hno : ∀ acc, addMapped acc s = acc := by
      intro acc
      simp [addMapped, mappedOf, h]
    simp [generate_questions, selectedCategories, processAnswer,
      List.foldl_append, hno]
  · intro p c h hc
    rw [generate_keys] at hc
    have hhit := selected_poolHit hc
    rw [poolHit, h] at hhit
    cases hhit

/-- C7 (witness): an unknown archetype has empty defaults; dropping the
unknown label "Woodworking" from a military themes answer leaves the output
unchanged; the non-pool name "Gardening Tips" is not an output category. -/
theorem degenerate_lookups_graceful_witness :
    baseCategories "Cooking & Recipes" = [] ∧
    generate_questions
        ⟨"Military & Service",
          [("Which aspects of your service are most important to capture? (Select all that apply)",
              Answer.strList ["Combat experiences", "Woodworking"])],
          "", [], "", ""⟩ =
      generate_questions
        ⟨"Military & Service",
          [("Which aspects of your service are most important to capture? (Select all that apply)",
              Answer.strList ["Combat experiences"])],
          "", [], "", ""⟩ ∧
    "Gardening Tips" ∉ (generate_questions chapterScope).map Prod.fst :=
  ⟨degenerate_lookups_graceful.1 "Cooking & Recipes" (by decide),
   degenerate_lookups_graceful.2.1 "Military & Service"
     "Which aspects of your service are most important to capture? (Select all that apply)"
     "" "" "" [] [] [] ["Combat experiences"] [] "Woodworking" (by decide),
   degenerate_lookups_graceful.2.2 chapterScope "Gardening Tips" (by decide)⟩

/-- C8: with the "Full Life Story" themes answer
`["Travel & Adventures", "Military Service"]`, the category
"Adventures & Experiences" appears in the output before
"Military & Service". -/
theorem multichoice_order_preserved :
    validScope fullLifeScope = true ∧
    "Adventures & Experiences" ∈
      (generate_questions fullLifeScope).map Prod.fst ∧
    "Military & Service" ∈ (generate_questions fullLifeScope).map Prod.fst ∧
    ((generate_questions fullLifeScope).map Prod.fst).indexOf
        "Adventures & Experiences" <
      ((generate_questions fullLifeScope).map Prod.fst).indexOf
        "Military & Service" := by
  decide

/-- C9: the catalog ships eight archetypes, and every option label of every
multiselect follow-up question is a key of the theme map that survives the
generator's truthiness test, so every possible multi-choice selection drives
category expansion. -/
theorem multiselect_options_mapped :
    LEGACY_TYPES.length = 8 ∧
    (LEGACY_TYPES.all fun kv => kv.2.all fun q =>
      !(q.qtype == QType.multiselect) ||
        q.options.all fun o => (mappedOf o).isSome) = true := by
  decide

/-- C10: every category in the default table and every theme-map value is a
pool key with a non-empty list; consequently no selected category is ever
dropped — the output keys are exactly the selected sequence — and for every
input scope (any legacy type, any answers) the output is non-empty and
contains "Reflection & Legacy" with its pool questions. -/
theorem tables_complete_and_closing_included :
    (LEGACY_TYPE_CATEGORIES.all fun kv => kv.2.all poolHit) = true ∧
    (THEME_TO_CATEGORY.all fun kv => poolHit kv.2) = true ∧
    ∀ p : ProjectScope,
      (generate_questions p).map Prod.fst = selectedCategories p ∧
      ("Reflection & Legacy",
          (QUESTIONS_BY_CATEGORY.lookup "Reflection & Legacy").getD []) ∈
        generate_questions p ∧
      generate_questions p ≠ [] := by
  refine ⟨by decide, by decide, fun p => ?_⟩
  have hmem := mem_generate_of_selected (closing_mem_selected p)
  refine ⟨generate_keys p, hmem, fun hnil => ?_⟩
  rw [hnil] at hmem
  cases hmem

end LivingLegacy
